import Mathlib

/-!
Verification development for the CodeClinic Q&A application
(src/main/models.py, src/main/views.py).

The entity store (Django ORM) is embedded as explicit lists of records;
view functions become pure functions from a store to a store plus a
response.  Machine integers are Nat, Python float division on the report
averages is embedded as rational division, timestamps are Nat.
Operations that can fail with a 404 (get_object_or_404) return Option.
-/

set_option maxHeartbeats 1000000

namespace CodeClinic

/-- Problem record (src/main/models.py lines 4-11): description, owning user,
nullable topic string, creation timestamp. -/
structure Problem where
  id : Nat
  user : Nat
  description : String
  topic : Option String
  created_at : Nat
  deriving Repr, DecidableEq

/-- Solution record (src/main/models.py lines 14-19): owning problem, content,
nullable human author, ai_generated flag, creation timestamp.
Modelled from the spec: the answer_type field (spec section 3, enum
direct|example|explanation|opinion) is used throughout src/main/views.py
(creation, ordering, grouping) but its declaration is absent from the
models.py file shipped under src, so it is added here following the spec. -/
structure Solution where
  id : Nat
  problem : Nat
  content : String
  author : Option Nat
  ai_generated : Bool
  answer_type : String
  created_at : Nat
  deriving Repr, DecidableEq

/-- Comment record (src/main/models.py lines 21-25). -/
structure Comment where
  id : Nat
  solution : Nat
  content : String
  author : Option Nat
  created_at : Nat
  deriving Repr, DecidableEq

/-- Vote record (src/main/models.py lines 27-30): one row per cast vote,
type is the string "up" or "down" (CharField with choices; choices are not
validated on save). -/
structure Vote where
  id : Nat
  solution : Nat
  user : Nat
  type : String
  deriving Repr, DecidableEq

/-- The entity store: the four tables plus the registered users and a
fresh-id counter standing for the primary-key sequences. -/
structure Store where
  users : List Nat
  problems : List Problem
  solutions : List Solution
  comments : List Comment
  votes : List Vote
  nextId : Nat
  deriving Repr, DecidableEq

/-- The store with no rows at all. -/
def emptyStore : Store := ⟨[], [], [], [], [], 0⟩

/-! ### infer_answer_type (src/main/views.py lines 144-152) -/

/-- Substring test on character lists: Python `pat in s`.  True when the
pattern occurs contiguously in the scanned list (the empty pattern occurs
everywhere, as in Python). -/
def containsChars (pat : List Char) : List Char → Bool
  | [] => pat.isEmpty
  | c :: rest => pat.isPrefixOf (c :: rest) || containsChars pat rest

/-- Python substring containment `pat in s` on strings. -/
def strContains (s pat : String) : Bool :=
  containsChars pat.data s.data

/-- Python `question.lower()`: lowercase every character. -/
def lowerString (s : String) : String :=
  ⟨s.data.map Char.toLower⟩

/-- Python `kw in question.lower()`: the keyword test used by
infer_answer_type (the keywords themselves are lowercase). -/
def containsKw (question kw : String) : Bool :=
  strContains (lowerString question) kw

/-- Local answer-type classifier (src/main/views.py lines 144-152): keyword
heuristics on the lowercased description, checked in order. -/
def infer_answer_type (question : String) : String :=
  let q := lowerString question
  if strContains q "example" || strContains q "sample" then "example"
  else if strContains q "explain" || strContains q "why" || strContains q "how does" then "explanation"
  else if strContains q "opinion" || strContains q "best" then "opinion"
  else "direct"

/-! ### vote_solution (src/main/views.py lines 227-247) -/

/-- JSON payload returned by vote_solution (views.py lines 243-247). -/
structure VoteResponse where
  message : String
  upvotes : Nat
  downvotes : Nat
  deriving Repr, DecidableEq

/-- Lookup of the existing Vote row for (user, solution):
the get_or_create filter of views.py lines 230-233. -/
def findVote (st : Store) (u sid : Nat) : Option Vote :=
  st.votes.find? (fun v => v.user == u && v.solution == sid)

/-- Count of votes of one type on one solution:
Vote.objects.filter(solution=solution, type=t).count() (views.py 245-246). -/
def countVotes (st : Store) (sid : Nat) (t : String) : Nat :=
  st.votes.countP (fun v => v.solution == sid && v.type == t)

/-- vote_solution (src/main/views.py lines 227-247).  get_object_or_404 on
the solution is `none`; otherwise get_or_create finds or creates the row for
(user, solution), duplicate same-type votes are deleted, anything else is
saved with the requested type, and the fresh counts are returned. -/
def vote_solution (st : Store) (u sid : Nat) (vote_type : String) :
    Option (Store × VoteResponse) :=
  match st.solutions.find? (fun s => s.id == sid) with
  | none => none
  | some _ =>
    match findVote st u sid with
    | some v =>
      if v.type == vote_type then
        let st2 : Store := { st with votes := st.votes.filter (fun w => w.id != v.id) }
        some (st2, ⟨"Vote removed", countVotes st2 sid "up", countVotes st2 sid "down"⟩)
      else
        let st2 : Store := { st with votes := st.votes.map (fun w => if w.id == v.id then { w with type := vote_type } else w) }
        some (st2, ⟨"Vote recorded", countVotes st2 sid "up", countVotes st2 sid "down"⟩)
    | none =>
      let st2 : Store := { st with
        votes := st.votes ++ [⟨st.nextId, sid, u, vote_type⟩],
        nextId := st.nextId + 1 }
      some (st2, ⟨"Vote recorded", countVotes st2 sid "up", countVotes st2 sid "down"⟩)

/-! ### submit_problem (src/main/views.py lines 82-163) -/

/-- Topics accepted from the AI classifier (views.py lines 108-111). -/
def VALID_TOPICS : List String :=
  ["Arrays", "Strings", "Math", "Binary Search", "Graphs",
   "Dynamic Programming", "Sorting", "Hashmaps", "Recursion", "Trees"]

/-- Outcome of the external AI interaction inside the try block of
submit_problem.  `disabled` is AI_ENABLED = False; `classifyRaised` is an
exception in the first generate_content call; `generateRaised` is an
exception in the second call after the classifier returned the given
(already stripped) topic; `ok` is both calls returning (stripped) text. -/
inductive AICallResult where
  | disabled : AICallResult
  | classifyRaised : AICallResult
  | generateRaised : String → AICallResult
  | ok : String → String → AICallResult
  deriving Repr, DecidableEq

/-- The (ai_topic, ai_solution_text) pair produced by views.py lines 88-136:
fallbacks for the disabled case, the except-branch values when either call
raises (the except clause overwrites both, lines 133-136), and the
valid-topic normalization to "Uncategorized" (lines 108-113). -/
def aiOutcome : AICallResult → String × String
  | AICallResult.disabled => ("Uncategorized", "AI service unavailable.")
  | AICallResult.classifyRaised => ("Unknown", "AI failed to generate a solution.")
  | AICallResult.generateRaised _ => ("Unknown", "AI failed to generate a solution.")
  | AICallResult.ok topic text =>
      (if VALID_TOPICS.contains topic then topic else "Uncategorized", text)

/-- submit_problem (src/main/views.py lines 82-163): always creates the
Problem with the (possibly fallback) topic, then one ai_generated Solution
whose answer_type comes from infer_answer_type on the description.  The
function is total: an AI failure is caught and never surfaces.  Returns the
new store and the id of the created problem. -/
def submit_problem (st : Store) (u : Nat) (description : String)
    (ai : AICallResult) (now : Nat) : Store × Nat :=
  let res := aiOutcome ai
  let pid := st.nextId
  let problem : Problem := ⟨pid, u, description, some res.1, now⟩
  let sol : Solution :=
    ⟨st.nextId + 1, pid, res.2, none, true, infer_answer_type description, now⟩
  ({ st with
      problems := st.problems ++ [problem],
      solutions := st.solutions ++ [sol],
      nextId := st.nextId + 2 }, pid)

/-- add_human_solution (src/main/views.py lines 166-183): 404 when the
problem does not exist (none), otherwise create a human Solution with
answer_type "direct" unless the content is empty (falsy). -/
def add_human_solution (st : Store) (u pid : Nat) (content : String) (now : Nat) :
    Option Store :=
  match st.problems.find? (fun p => p.id == pid) with
  | none => none
  | some _ =>
    if content == "" then some st
    else some { st with
      solutions := st.solutions ++ [⟨st.nextId, pid, content, some u, false, "direct", now⟩],
      nextId := st.nextId + 1 }

/-- add_comment (src/main/views.py lines 215-224): 404 when the solution
does not exist, otherwise append a Comment row. -/
def add_comment (st : Store) (u sid : Nat) (content : String) (now : Nat) :
    Option Store :=
  match st.solutions.find? (fun s => s.id == sid) with
  | none => none
  | some _ => some { st with
      comments := st.comments ++ [⟨st.nextId, sid, content, some u, now⟩],
      nextId := st.nextId + 1 }

/-! ### problem_detail and the solution ordering (src/main/views.py 186-207) -/

/-- A solution annotated with its vote aggregates, as produced by the
annotate call of problem_detail (views.py lines 191-194). -/
structure RankedSolution where
  sol : Solution
  upvotes_count : Nat
  downvotes_count : Nat
  deriving Repr, DecidableEq

/-- One solution together with its up and down vote counts. -/
def annotate (st : Store) (s : Solution) : RankedSolution :=
  ⟨s, countVotes st s.id "up", countVotes st s.id "down"⟩

/-- The five-component sort key of the order_by call (views.py lines
195-201): ai_generated descending (negated Bool ascending), answer_type
ascending, upvotes_count descending (dual), downvotes_count ascending,
created_at descending (dual), compared lexicographically. -/
def sortKey (r : RankedSolution) : Bool ×ₗ (List Char ×ₗ (ℕᵒᵈ ×ₗ (ℕ ×ₗ ℕᵒᵈ))) :=
  toLex (!r.sol.ai_generated,
    toLex (r.sol.answer_type.data,
      toLex (OrderDual.toDual r.upvotes_count,
        toLex (r.downvotes_count, OrderDual.toDual r.sol.created_at))))

/-- The ordering relation the queryset is sorted by. -/
def solutionOrder (a b : RankedSolution) : Prop :=
  sortKey a ≤ sortKey b

instance : DecidableRel solutionOrder :=
  fun a b => inferInstanceAs (Decidable (sortKey a ≤ sortKey b))

instance : IsTrans RankedSolution solutionOrder :=
  ⟨fun _ _ _ h1 h2 => le_trans h1 h2⟩

instance : IsTotal RankedSolution solutionOrder :=
  ⟨fun a b => le_total (sortKey a) (sortKey b)⟩

/-- The annotated queryset problem.solutions before ordering: the problem
solutions in store order, each with its vote counts. -/
def detailInput (st : Store) (pid : Nat) : List RankedSolution :=
  (st.solutions.filter (fun s => s.problem == pid)).map (annotate st)

/-- problem_detail (src/main/views.py lines 186-207) as a relation between
the store and the solution lists the view can produce.  The ordering is
delegated to the database by order_by, and the store contract (spec section
6) guarantees a multi-field sort but nothing about the relative order of
rows equal on every sort key, so the embedding admits every sorted
permutation of the annotated queryset.  `problem_detail st pid l` holds
exactly when the problem exists (otherwise a 404 is raised) and l is one of
the lists the database may return. -/
def problem_detail (st : Store) (pid : Nat) (l : List RankedSolution) : Prop :=
  (st.problems.find? (fun p => p.id == pid)).isSome = true ∧
  l.Perm (detailInput st pid) ∧
  l.Pairwise solutionOrder

instance (st : Store) (pid : Nat) (l : List RankedSolution) :
    Decidable (problem_detail st pid l) :=
  inferInstanceAs (Decidable
    ((st.problems.find? (fun p => p.id == pid)).isSome = true ∧
     l.Perm (detailInput st pid) ∧
     l.Pairwise solutionOrder))

/-- The five-key comparison spelled out as the spec states it: ai_generated
descending, then answer_type ascending, then upvotes_count descending, then
downvotes_count ascending, then created_at descending, ties falling through. -/
def FiveKeyLE (a b : RankedSolution) : Prop :=
  b.sol.ai_generated < a.sol.ai_generated ∨
  (a.sol.ai_generated = b.sol.ai_generated ∧
    (a.sol.answer_type.data < b.sol.answer_type.data ∨
    (a.sol.answer_type.data = b.sol.answer_type.data ∧
      (b.upvotes_count < a.upvotes_count ∨
      (a.upvotes_count = b.upvotes_count ∧
        (a.downvotes_count < b.downvotes_count ∨
        (a.downvotes_count = b.downvotes_count ∧
          b.sol.created_at ≤ a.sol.created_at)))))))

/-- Equality on all five sort keys (the stability side condition). -/
def sameFiveKeys (a b : RankedSolution) : Prop :=
  a.sol.ai_generated = b.sol.ai_generated ∧
  a.sol.answer_type = b.sol.answer_type ∧
  a.upvotes_count = b.upvotes_count ∧
  a.downvotes_count = b.downvotes_count ∧
  a.sol.created_at = b.sol.created_at

instance (a b : RankedSolution) : Decidable (sameFiveKeys a b) :=
  inferInstanceAs (Decidable
    (a.sol.ai_generated = b.sol.ai_generated ∧
     a.sol.answer_type = b.sol.answer_type ∧
     a.upvotes_count = b.upvotes_count ∧
     a.downvotes_count = b.downvotes_count ∧
     a.sol.created_at = b.sol.created_at))

/-! ### reports_dashboard (src/main/views.py lines 250-377) -/

/-- Group a list of keys into (key, multiplicity) buckets, one bucket per
distinct key, buckets in order of first occurrence: the embedding of the
values(...).annotate(count=Count(...)) pattern. -/
def groupCounts {α : Type} [BEq α] (l : List α) : List (α × Nat) :=
  l.eraseDups.map (fun x => (x, l.count x))

/-- Descending order on the count component of a bucket. -/
def countDesc {α : Type} (p q : α × Nat) : Prop := q.2 ≤ p.2

instance {α : Type} : DecidableRel (countDesc (α := α)) :=
  fun p q => inferInstanceAs (Decidable (q.2 ≤ p.2))

instance {α : Type} : IsTrans (α × Nat) countDesc :=
  ⟨fun _ _ _ h1 h2 => le_trans h2 h1⟩

instance {α : Type} : IsTotal (α × Nat) countDesc :=
  ⟨fun p q => (le_total q.2 p.2).imp id id⟩

/-- Calendar-date truncation of a timestamp (TruncDate): the day index. -/
def truncDate (t : Nat) : Nat := t / 86400

/-- Ascending order on the date component of a daily bucket. -/
def dateAsc (p q : Nat × Nat) : Prop := p.1 ≤ q.1

instance : DecidableRel dateAsc :=
  fun p q => inferInstanceAs (Decidable (p.1 ≤ q.1))

instance : IsTrans (Nat × Nat) dateAsc := ⟨fun _ _ _ h1 h2 => le_trans h1 h2⟩

instance : IsTotal (Nat × Nat) dateAsc := ⟨fun p q => le_total p.1 q.1⟩

/-- Row of the top_active_users leaderboard (views.py lines 271-281). -/
structure UserActivityRow where
  user : Nat
  human_solutions_posted : Nat
  comments_posted : Nat
  activity_score : Nat
  deriving Repr, DecidableEq

/-- Row of the per-class top-solutions leaderboards (views.py 306-324). -/
structure SolutionScoreRow where
  solution : Nat
  upvotes : Nat
  downvotes : Nat
  score : Nat
  deriving Repr, DecidableEq

/-- Row of the best_users leaderboard (views.py lines 326-336). -/
structure BestUserRow where
  user : Nat
  total_upvotes : Nat
  total_solutions : Nat
  deriving Repr, DecidableEq

/-- Row of the most_active_problems leaderboard (views.py 339-349). -/
structure ProblemActivityRow where
  problem : Nat
  solution_count : Nat
  comment_count : Nat
  activity_score : Nat
  deriving Repr, DecidableEq

/-- Count of human-authored solutions posted by one user
(Count("solution", filter=Q(solution__ai_generated=False), distinct=True)). -/
def humanSolutionsPosted (st : Store) (u : Nat) : Nat :=
  st.solutions.countP (fun s => s.author == some u && !s.ai_generated)

/-- Count of comments posted by one user (Count("comment", distinct=True)). -/
def commentsPosted (st : Store) (u : Nat) : Nat :=
  st.comments.countP (fun c => c.author == some u)

/-- Descending order on an activity score. -/
def activityDesc (p q : UserActivityRow) : Prop := q.activity_score ≤ p.activity_score

instance : DecidableRel activityDesc :=
  fun p q => inferInstanceAs (Decidable (q.activity_score ≤ p.activity_score))

instance : IsTrans UserActivityRow activityDesc := ⟨fun _ _ _ h1 h2 => le_trans h2 h1⟩

instance : IsTotal UserActivityRow activityDesc :=
  ⟨fun p q => (le_total q.activity_score p.activity_score).imp id id⟩

/-- top_active_users (views.py lines 271-281): per user the count of
human-authored solutions plus the count of comments, ordered by that sum
descending, limit 10. -/
def top_active_users (st : Store) : List UserActivityRow :=
  ((st.users.map (fun u =>
      UserActivityRow.mk u (humanSolutionsPosted st u) (commentsPosted st u)
        (humanSolutionsPosted st u + commentsPosted st u))).insertionSort activityDesc).take 10

/-- Count of all votes sitting on solutions of the given class:
Vote.objects.filter(solution__ai_generated=flag).count() (views.py 286-287). -/
def classVotes (st : Store) (flag : Bool) : Nat :=
  st.votes.countP (fun v =>
    st.solutions.any (fun s => s.id == v.solution && s.ai_generated == flag))

/-- Count of solutions of the given class (views.py lines 283-284). -/
def classSolutions (st : Store) (flag : Bool) : Nat :=
  st.solutions.countP (fun s => s.ai_generated == flag)

/-- Average votes per solution of a class (views.py lines 289-290): Python
float division embedded as rational division, and 0 when the class has no
solutions (the conditional expression guards the denominator). -/
def classAvgVotes (st : Store) (flag : Bool) : ℚ :=
  if classSolutions st flag == 0 then 0
  else (classVotes st flag : ℚ) / (classSolutions st flag : ℚ)

/-- Answer-type breakdown for one class (views.py lines 292-304): group the
solutions of the class by answer_type, count, order by count descending. -/
def typeBreakdown (st : Store) (flag : Bool) : List (String × Nat) :=
  (groupCounts ((st.solutions.filter (fun s => s.ai_generated == flag)).map
    (fun s => s.answer_type))).insertionSort countDesc

/-- Descending order on a solution score. -/
def scoreDesc (p q : SolutionScoreRow) : Prop := q.score ≤ p.score

instance : DecidableRel scoreDesc :=
  fun p q => inferInstanceAs (Decidable (q.score ≤ p.score))

instance : IsTrans SolutionScoreRow scoreDesc := ⟨fun _ _ _ h1 h2 => le_trans h2 h1⟩

instance : IsTotal SolutionScoreRow scoreDesc :=
  ⟨fun p q => (le_total q.score p.score).imp id id⟩

/-- Count of all votes on one solution (score = Count("vote")). -/
def allVotesOn (st : Store) (sid : Nat) : Nat :=
  st.votes.countP (fun v => v.solution == sid)

/-- Per-class top solutions (views.py lines 306-324): upvotes, downvotes and
score = total vote count per solution of the class, ordered by score
descending, limit 10. -/
def topSolutions (st : Store) (flag : Bool) : List SolutionScoreRow :=
  (((st.solutions.filter (fun s => s.ai_generated == flag)).map (fun s =>
      SolutionScoreRow.mk s.id (countVotes st s.id "up") (countVotes st s.id "down")
        (allVotesOn st s.id))).insertionSort scoreDesc).take 10

/-- The total_upvotes aggregate of best_users (views.py lines 329-332):
count of "up" votes sitting on human-authored solutions of the user. -/
def totalUpvotesOf (st : Store) (u : Nat) : Nat :=
  st.votes.countP (fun v => v.type == "up" &&
    st.solutions.any (fun s => s.id == v.solution && s.author == some u && !s.ai_generated))

/-- Descending order on total_upvotes. -/
def upvotesDesc (p q : BestUserRow) : Prop := q.total_upvotes ≤ p.total_upvotes

instance : DecidableRel upvotesDesc :=
  fun p q => inferInstanceAs (Decidable (q.total_upvotes ≤ p.total_upvotes))

instance : IsTrans BestUserRow upvotesDesc := ⟨fun _ _ _ h1 h2 => le_trans h2 h1⟩

instance : IsTotal BestUserRow upvotesDesc :=
  ⟨fun p q => (le_total q.total_upvotes p.total_upvotes).imp id id⟩

/-- best_users (views.py lines 326-336): per user the count of upvotes on
human-authored solutions and the count of human-authored solutions, ordered
by total_upvotes descending, limit 10. -/
def best_users (st : Store) : List BestUserRow :=
  ((st.users.map (fun u =>
      BestUserRow.mk u (totalUpvotesOf st u) (humanSolutionsPosted st u))).insertionSort
        upvotesDesc).take 10

/-- Descending order on a problem activity score. -/
def problemActivityDesc (p q : ProblemActivityRow) : Prop :=
  q.activity_score ≤ p.activity_score

instance : DecidableRel problemActivityDesc :=
  fun p q => inferInstanceAs (Decidable (q.activity_score ≤ p.activity_score))

instance : IsTrans ProblemActivityRow problemActivityDesc :=
  ⟨fun _ _ _ h1 h2 => le_trans h2 h1⟩

instance : IsTotal ProblemActivityRow problemActivityDesc :=
  ⟨fun p q => (le_total q.activity_score p.activity_score).imp id id⟩

/-- Count of human-authored solutions attached to one problem. -/
def problemSolutionCount (st : Store) (pid : Nat) : Nat :=
  st.solutions.countP (fun s => s.problem == pid && !s.ai_generated)

/-- Count of comments attached to any solution of one problem (note: all
solutions, not only human ones). -/
def problemCommentCount (st : Store) (pid : Nat) : Nat :=
  st.comments.countP (fun c =>
    st.solutions.any (fun s => s.id == c.solution && s.problem == pid))

/-- most_active_problems (views.py lines 339-349). -/
def most_active_problems (st : Store) : List ProblemActivityRow :=
  ((st.problems.map (fun p =>
      ProblemActivityRow.mk p.id (problemSolutionCount st p.id) (problemCommentCount st p.id)
        (problemSolutionCount st p.id + problemCommentCount st p.id))).insertionSort
        problemActivityDesc).take 10

/-- The assembled report snapshot (views.py lines 351-375), flattening the
engagement / ai / oversight groups into one record. -/
structure Report where
  total_problems : Nat
  total_solutions : Nat
  total_comments : Nat
  total_votes : Nat
  problems_per_topic : List (Option String × Nat)
  problems_daily : List (Nat × Nat)
  top_active_users : List UserActivityRow
  ai_solutions : Nat
  human_solutions : Nat
  ai_avg_votes : ℚ
  human_avg_votes : ℚ
  ai_type_breakdown : List (String × Nat)
  human_type_breakdown : List (String × Nat)
  top_ai_solutions : List SolutionScoreRow
  top_human_solutions : List SolutionScoreRow
  best_users : List BestUserRow
  most_active_problems : List ProblemActivityRow
  deriving Repr, DecidableEq

/-- reports_dashboard (src/main/views.py lines 250-377): every aggregation
query computed fresh from the store; the function is read-only. -/
def reports_dashboard (st : Store) : Report where
  total_problems := st.problems.length
  total_solutions := st.solutions.length
  total_comments := st.comments.length
  total_votes := st.votes.length
  problems_per_topic :=
    (groupCounts (st.problems.map (fun p => p.topic))).insertionSort countDesc
  problems_daily :=
    (groupCounts (st.problems.map (fun p => truncDate p.created_at))).insertionSort dateAsc
  top_active_users := top_active_users st
  ai_solutions := classSolutions st true
  human_solutions := classSolutions st false
  ai_avg_votes := classAvgVotes st true
  human_avg_votes := classAvgVotes st false
  ai_type_breakdown := typeBreakdown st true
  human_type_breakdown := typeBreakdown st false
  top_ai_solutions := topSolutions st true
  top_human_solutions := topSolutions st false
  best_users := best_users st
  most_active_problems := most_active_problems st

/-! ### Operations for the uniqueness invariant (claim C3) -/

/-- The store operations of the claim: vote toggling, problem submission,
adding a human solution, adding a comment, building the report. -/
inductive Op where
  | vote : Nat → Nat → String → Op
  | submit : Nat → String → AICallResult → Nat → Op
  | addSolution : Nat → Nat → String → Nat → Op
  | addComment : Nat → Nat → String → Nat → Op
  | report : Op
  deriving Repr, DecidableEq

/-- Sequential execution of one operation on the store.  A 404 (none)
leaves the store unchanged; building the report computes the snapshot and
returns the store untouched (reports_dashboard is read-only). -/
def applyOp (st : Store) : Op → Store
  | Op.vote u sid t =>
      match vote_solution st u sid t with
      | some (st2, _) => st2
      | none => st
  | Op.submit u d ai now => (submit_problem st u d ai now).1
  | Op.addSolution u pid c now =>
      match add_human_solution st u pid c now with
      | some st2 => st2
      | none => st
  | Op.addComment u sid c now =>
      match add_comment st u sid c now with
      | some st2 => st2
      | none => st
  | Op.report =>
      let _snapshot := reports_dashboard st
      st

/-- The store invariant: at most one Vote row per (user, solution) pair. -/
def uniqueVotes (st : Store) : Prop :=
  st.votes.Pairwise (fun v w => ¬(v.user = w.user ∧ v.solution = w.solution))

instance (st : Store) : Decidable (uniqueVotes st) :=
  inferInstanceAs (Decidable (st.votes.Pairwise _))

/-! ### Concrete scenario fixtures from the spec (spec section 8) -/

/-- Scenario solution S1: ai_generated, answer_type direct, 2 upvotes. -/
def scenarioS1 : Solution := ⟨11, 1, "s1", none, true, "direct", 3⟩

/-- Scenario solution S2: human, answer_type direct, 5 up and 1 down. -/
def scenarioS2 : Solution := ⟨12, 1, "s2", some 101, false, "direct", 2⟩

/-- Scenario solution S3: ai_generated, answer_type example, 10 upvotes. -/
def scenarioS3 : Solution := ⟨13, 1, "s3", none, true, "example", 1⟩

/-- Votes of the ordering scenario: 2 up on S1, 5 up and 1 down on S2,
10 up on S3. -/
def scenarioVotes : List Vote :=
  [⟨1000, 11, 200, "up"⟩, ⟨1001, 11, 201, "up"⟩,
   ⟨1002, 12, 200, "up"⟩, ⟨1003, 12, 201, "up"⟩, ⟨1004, 12, 202, "up"⟩,
   ⟨1005, 12, 203, "up"⟩, ⟨1006, 12, 204, "up"⟩, ⟨1007, 12, 205, "down"⟩,
   ⟨1008, 13, 200, "up"⟩, ⟨1009, 13, 201, "up"⟩, ⟨1010, 13, 202, "up"⟩,
   ⟨1011, 13, 203, "up"⟩, ⟨1012, 13, 204, "up"⟩, ⟨1013, 13, 205, "up"⟩,
   ⟨1014, 13, 206, "up"⟩, ⟨1015, 13, 207, "up"⟩, ⟨1016, 13, 208, "up"⟩,
   ⟨1017, 13, 209, "up"⟩]

/-- Store holding problem 1 with scenario solutions S1, S2, S3 and their
votes. -/
def scenarioStore : Store :=
  ⟨[100, 101], [⟨1, 100, "p", some "Arrays", 0⟩],
   [scenarioS1, scenarioS2, scenarioS3], [], scenarioVotes, 2000⟩

/-- Scenario solution S1 with its vote counts (2 up, 0 down). -/
def scenarioR1 : RankedSolution := annotate scenarioStore scenarioS1

/-- Scenario solution S2 with its vote counts (5 up, 1 down). -/
def scenarioR2 : RankedSolution := annotate scenarioStore scenarioS2

/-- Scenario solution S3 with its vote counts (10 up, 0 down). -/
def scenarioR3 : RankedSolution := annotate scenarioStore scenarioS3

/-- First of two tied solutions: ai_generated, direct, no votes, same
creation time as tieB. -/
def tieA : Solution := ⟨11, 1, "a", none, true, "direct", 5⟩

/-- Second tied solution, agreeing with tieA on all five sort keys. -/
def tieB : Solution := ⟨12, 1, "b", none, true, "direct", 5⟩

/-- Store whose problem 1 has two solutions equal on all five sort keys,
with tieA stored before tieB. -/
def tieStore : Store :=
  ⟨[100], [⟨1, 100, "p", some "Math", 0⟩], [tieA, tieB], [], [], 2000⟩

/-- Spec scenario for the averages: 3 AI solutions and 2 human solutions,
4 votes total on AI solutions and 2 on human ones. -/
def avgScenarioStore : Store :=
  ⟨[100, 101], [⟨1, 100, "p", some "Math", 0⟩],
   [⟨11, 1, "a1", none, true, "direct", 0⟩,
    ⟨12, 1, "a2", none, true, "direct", 0⟩,
    ⟨13, 1, "a3", none, true, "direct", 0⟩,
    ⟨14, 1, "h1", some 101, false, "direct", 0⟩,
    ⟨15, 1, "h2", some 101, false, "direct", 0⟩],
   [],
   [⟨1000, 11, 200, "up"⟩, ⟨1001, 11, 201, "down"⟩,
    ⟨1002, 12, 200, "up"⟩, ⟨1003, 13, 200, "up"⟩,
    ⟨1004, 14, 200, "up"⟩, ⟨1005, 15, 200, "down"⟩],
   2000⟩

/-- Store in which the only solutions of user 50 are AI-generated (the
author field of an AI solution is null in the code, so this store gives an
AI solution a human author on purpose, the worst case for the filter) and
those solutions carry upvotes. -/
def aiOnlyScenarioStore : Store :=
  ⟨[50, 51], [⟨1, 50, "p", some "Math", 0⟩],
   [⟨11, 1, "a1", some 50, true, "direct", 0⟩,
    ⟨12, 1, "h1", some 51, false, "direct", 0⟩],
   [],
   [⟨1000, 11, 200, "up"⟩, ⟨1001, 11, 201, "up"⟩, ⟨1002, 12, 200, "up"⟩],
   2000⟩

/-- Store with one problem, one solution and no votes, used to exercise the
vote operation from a clean state. -/
def freshVoteStore : Store :=
  ⟨[7], [⟨1, 7, "p", some "Math", 0⟩], [⟨11, 1, "s", none, true, "direct", 0⟩], [], [], 500⟩

/-! ### Helper lemmas -/

theorem bool_not_lt_not (x y : Bool) : (!x) < (!y) ↔ y < x := by
  cases x <;> cases y <;> decide

theorem bool_not_eq_not (x y : Bool) : (!x) = (!y) ↔ x = y := by
  cases x <;> cases y <;> decide

/-- The queryset comparison coincides with the five-key comparison of the
spec. -/
theorem solutionOrder_iff (a b : RankedSolution) :
    solutionOrder a b ↔ FiveKeyLE a b := by
  show sortKey a ≤ sortKey b ↔ _
  simp only [sortKey, FiveKeyLE, Prod.Lex.le_iff, OrderDual.toDual_le_toDual,
    OrderDual.toDual_lt_toDual, OrderDual.toDual_inj, bool_not_lt_not, bool_not_eq_not]

theorem updVote_user (X : Nat) (t : String) (w : Vote) :
    (if w.id == X then { w with type := t } else w).user = w.user := by
  split <;> rfl

theorem updVote_solution (X : Nat) (t : String) (w : Vote) :
    (if w.id == X then { w with type := t } else w).solution = w.solution := by
  split <;> rfl

/-- A successful vote_solution call preserves the per-(user, solution)
uniqueness of Vote rows. -/
theorem vote_solution_uniqueVotes {st : Store} {u sid : Nat} {t : String}
    {st2 : Store} {r : VoteResponse}
    (hv : vote_solution st u sid t = some (st2, r)) (h : uniqueVotes st) :
    uniqueVotes st2 := by
  cases hs : st.solutions.find? (fun s => s.id == sid) with
  | none =>
    simp only [vote_solution, hs] at hv
    exact Option.noConfusion hv
  | some s0 =>
    cases hfv : findVote st u sid with
    | some v =>
      simp only [vote_solution, hs, hfv] at hv
      split at hv <;>
        (simp only [Option.some.injEq, Prod.mk.injEq] at hv;
         obtain ⟨hst, -⟩ := hv; subst hst)
      · exact List.Pairwise.sublist (List.filter_sublist _) h
      · refine List.Pairwise.map _ ?_ h
        intro a b hab hcon
        apply hab
        refine ⟨?_, ?_⟩
        · have h1 := hcon.1
          rwa [updVote_user v.id t a, updVote_user v.id t b] at h1
        · have h2 := hcon.2
          rwa [updVote_solution v.id t a, updVote_solution v.id t b] at h2
    | none =>
      simp only [vote_solution, hs, hfv] at hv
      simp only [Option.some.injEq, Prod.mk.injEq] at hv
      obtain ⟨hst, -⟩ := hv
      subst hst
      unfold uniqueVotes
      rw [List.pairwise_append]
      refine ⟨h, List.pairwise_singleton _ _, ?_⟩
      have hp : ∀ x ∈ st.votes, x.user = u → ¬x.solution = sid := by
        simpa [findVote] using hfv
      intro a ha b hb
      simp only [List.mem_singleton] at hb
      subst hb
      intro hab
      exact hp a ha hab.1 hab.2

theorem add_human_solution_votes {st : Store} {u pid : Nat} {c : String}
    {now : Nat} {st2 : Store}
    (h : add_human_solution st u pid c now = some st2) : st2.votes = st.votes := by
  cases hf : st.problems.find? (fun p => p.id == pid) with
  | none =>
    simp only [add_human_solution, hf] at h
    exact Option.noConfusion h
  | some p0 =>
    simp only [add_human_solution, hf] at h
    split at h <;> (obtain rfl := Option.some.inj h.symm; rfl)

theorem add_comment_votes {st : Store} {u sid : Nat} {c : String}
    {now : Nat} {st2 : Store}
    (h : add_comment st u sid c now = some st2) : st2.votes = st.votes := by
  cases hf : st.solutions.find? (fun s => s.id == sid) with
  | none =>
    simp only [add_comment, hf] at h
    exact Option.noConfusion h
  | some s0 =>
    simp only [add_comment, hf] at h
    obtain rfl := Option.some.inj h.symm
    rfl

/-- Every operation preserves the uniqueness invariant. -/
theorem applyOp_uniqueVotes (st : Store) (op : Op) (h : uniqueVotes st) :
    uniqueVotes (applyOp st op) := by
  cases op with
  | vote u sid t =>
    simp only [applyOp]
    cases hv : vote_solution st u sid t with
    | none => exact h
    | some p =>
      obtain ⟨st2, r⟩ := p
      exact vote_solution_uniqueVotes hv h
  | submit u d ai now => exact h
  | addSolution u pid c now =>
    simp only [applyOp]
    cases ha : add_human_solution st u pid c now with
    | none => exact h
    | some st2 =>
      unfold uniqueVotes
      rw [add_human_solution_votes ha]
      exact h
  | addComment u sid c now =>
    simp only [applyOp]
    cases ha : add_comment st u sid c now with
    | none => exact h
    | some st2 =>
      unfold uniqueVotes
      rw [add_comment_votes ha]
      exact h
  | report => exact h

/-- Any sequence of operations starting from a store satisfying the
invariant keeps satisfying it. -/
theorem foldl_applyOp_uniqueVotes (ops : List Op) (st : Store) (h : uniqueVotes st) :
    uniqueVotes (ops.foldl applyOp st) := by
  induction ops generalizing st with
  | nil => exact h
  | cons op rest ih => exact ih _ (applyOp_uniqueVotes st op h)

/-! ### Claim theorems -/

/-- On the scenario store the five sort keys of the three solutions are
pairwise distinct, so the sorted permutation of the queryset is unique. -/
theorem scenario_sorted_unique (l : List RankedSolution)
    (hperm : l.Perm (detailInput scenarioStore 1))
    (hsort : l.Pairwise solutionOrder) :
    l = [scenarioR1, scenarioR3, scenarioR2] := by
  have hin : detailInput scenarioStore 1 = [scenarioR1, scenarioR2, scenarioR3] := by decide
  rw [hin] at hperm
  have hlen := hperm.length_eq
  rcases l with _ | ⟨a, _ | ⟨b, _ | ⟨c, _ | ⟨d, tl⟩⟩⟩⟩ <;> simp at hlen
  have ha : a ∈ [scenarioR1, scenarioR2, scenarioR3] :=
    hperm.subset (List.mem_cons_self _ _)
  have hrest := (List.cons_perm_iff_perm_erase.mp hperm).2
  rcases List.mem_cons.mp ha with rfl | ha2
  · have he : [scenarioR1, scenarioR2, scenarioR3].erase scenarioR1 =
        [scenarioR2, scenarioR3] := by decide
    rw [he] at hrest
    have hb : b ∈ [scenarioR2, scenarioR3] := hrest.subset (List.mem_cons_self _ _)
    have hrest2 := (List.cons_perm_iff_perm_erase.mp hrest).2
    rcases List.mem_cons.mp hb with rfl | hb2
    · have he2 : [scenarioR2, scenarioR3].erase scenarioR2 = [scenarioR3] := by decide
      rw [he2] at hrest2
      have hc := List.perm_singleton.mp hrest2
      simp only [List.cons.injEq, and_true] at hc
      subst hc
      exact absurd hsort (by decide)
    · rcases List.mem_singleton.mp hb2 with rfl
      have he2 : [scenarioR2, scenarioR3].erase scenarioR3 = [scenarioR2] := by decide
      rw [he2] at hrest2
      have hc := List.perm_singleton.mp hrest2
      simp only [List.cons.injEq, and_true] at hc
      subst hc
      rfl
  · rcases List.mem_cons.mp ha2 with rfl | ha3
    · have he : [scenarioR1, scenarioR2, scenarioR3].erase scenarioR2 =
          [scenarioR1, scenarioR3] := by decide
      rw [he] at hrest
      have hb : b ∈ [scenarioR1, scenarioR3] := hrest.subset (List.mem_cons_self _ _)
      have hrest2 := (List.cons_perm_iff_perm_erase.mp hrest).2
      rcases List.mem_cons.mp hb with rfl | hb2
      · have he2 : [scenarioR1, scenarioR3].erase scenarioR1 = [scenarioR3] := by decide
        rw [he2] at hrest2
        have hc := List.perm_singleton.mp hrest2
        simp only [List.cons.injEq, and_true] at hc
        subst hc
        exact absurd hsort (by decide)
      · rcases List.mem_singleton.mp hb2 with rfl
        have he2 : [scenarioR1, scenarioR3].erase scenarioR3 = [scenarioR1] := by decide
        rw [he2] at hrest2
        have hc := List.perm_singleton.mp hrest2
        simp only [List.cons.injEq, and_true] at hc
        subst hc
        exact absurd hsort (by decide)
    · rcases List.mem_singleton.mp ha3 with rfl
      have he : [scenarioR1, scenarioR2, scenarioR3].erase scenarioR3 =
          [scenarioR1, scenarioR2] := by decide
      rw [he] at hrest
      have hb : b ∈ [scenarioR1, scenarioR2] := hrest.subset (List.mem_cons_self _ _)
      have hrest2 := (List.cons_perm_iff_perm_erase.mp hrest).2
      rcases List.mem_cons.mp hb with rfl | hb2
      · have he2 : [scenarioR1, scenarioR2].erase scenarioR1 = [scenarioR2] := by decide
        rw [he2] at hrest2
        have hc := List.perm_singleton.mp hrest2
        simp only [List.cons.injEq, and_true] at hc
        subst hc
        exact absurd hsort (by decide)
      · rcases List.mem_singleton.mp hb2 with rfl
        have he2 : [scenarioR1, scenarioR2].erase scenarioR2 = [scenarioR1] := by decide
        rw [he2] at hrest2
        have hc := List.perm_singleton.mp hrest2
        simp only [List.cons.injEq, and_true] at hc
        subst hc
        exact absurd hsort (by decide)

/-- C1 (amended): every solution list problem_detail can produce is ordered
by the five-key sort (ai_generated descending, answer_type ascending
lexicographically with direct before example before explanation before
opinion, upvotes_count descending, downvotes_count ascending, created_at
descending) and is a permutation of the annotated queryset; the relative
order of solutions equal on all five keys is not guaranteed, because the
database-delegated order_by gives no tie guarantee (see the stability
counterexample); on the scenario store with S1(ai, direct, 2 up),
S2(human, direct, 5 up 1 down), S3(ai, example, 10 up), whose keys are
pairwise distinct, every producible order is exactly S1, S3, S2. -/
theorem C1_solution_ordering (st : Store) (pid : Nat) (l : List RankedSolution)
    (h : problem_detail st pid l) :
    List.Pairwise FiveKeyLE l ∧
    l.Perm (detailInput st pid) ∧
    ("direct".data < "example".data ∧ "example".data < "explanation".data ∧
      "explanation".data < "opinion".data) ∧
    (∀ l2, problem_detail scenarioStore 1 l2 →
      l2 = [scenarioR1, scenarioR3, scenarioR2]) := by
  obtain ⟨-, hperm, hsort⟩ := h
  refine ⟨hsort.imp (fun hab => (solutionOrder_iff _ _).mp hab), hperm,
    ⟨by decide, by decide, by decide⟩, ?_⟩
  intro l2 h2
  obtain ⟨-, hperm2, hsort2⟩ := h2
  exact scenario_sorted_unique l2 hperm2 hsort2

/-- Witness for C1 at the scenario store with its unique sorted output. -/
theorem C1_solution_ordering_witness :
    List.Pairwise FiveKeyLE [scenarioR1, scenarioR3, scenarioR2] ∧
    ([scenarioR1, scenarioR3, scenarioR2] : List RankedSolution).Perm
      (detailInput scenarioStore 1) ∧
    ("direct".data < "example".data ∧ "example".data < "explanation".data ∧
      "explanation".data < "opinion".data) ∧
    (∀ l2, problem_detail scenarioStore 1 l2 →
      l2 = [scenarioR1, scenarioR3, scenarioR2]) :=
  C1_solution_ordering scenarioStore 1 [scenarioR1, scenarioR3, scenarioR2] (by decide)

/-- Counterexample to C1 as frozen: its stability conjunct fails on the
code.  The two solutions of tieStore agree on all five sort keys and the
queryset lists tieA before tieB, yet the reversed list is an admissible
output of problem_detail, since the store contract lets order_by return
ties in any order; that output does not keep the prior relative order. -/
theorem C1_stability_counterexample :
    sameFiveKeys (annotate tieStore tieA) (annotate tieStore tieB) ∧
    detailInput tieStore 1 = [annotate tieStore tieA, annotate tieStore tieB] ∧
    problem_detail tieStore 1 [annotate tieStore tieB, annotate tieStore tieA] ∧
    ¬ [annotate tieStore tieA, annotate tieStore tieB].Sublist
        [annotate tieStore tieB, annotate tieStore tieA] := by
  refine ⟨by decide, by decide, ⟨by decide, by decide, by decide⟩, by decide⟩

/-- C3: every operation (vote toggling, problem submission, adding a
solution, adding a comment, building the report) preserves the invariant of
at most one Vote row per (user, solution) pair, hence every store reachable
from the empty store by a sequence of operations satisfies it. -/
theorem C3_vote_uniqueness (st : Store) (op : Op) (h : uniqueVotes st) :
    uniqueVotes (applyOp st op) ∧
    ∀ ops : List Op, uniqueVotes (ops.foldl applyOp emptyStore) :=
  ⟨applyOp_uniqueVotes st op h,
   fun ops => foldl_applyOp_uniqueVotes ops emptyStore (by decide)⟩

/-- Witness for C3: a vote toggle on the scenario store. -/
theorem C3_vote_uniqueness_witness :
    uniqueVotes (applyOp scenarioStore (Op.vote 200 11 "up")) ∧
    ∀ ops : List Op, uniqueVotes (ops.foldl applyOp emptyStore) :=
  C3_vote_uniqueness scenarioStore (Op.vote 200 11 "up") (by decide)

/-- C5: for each class the report average is total votes over solution
count, multiplicatively characterized for a nonzero denominator and exactly
0 for an empty class, with the spec scenario (3 AI solutions with 4 votes, 2
human solutions with 2 votes) giving ai_avg_votes = 4/3 and
human_avg_votes = 1.0. -/
theorem C5_average_votes (st : Store) :
    (classSolutions st true = 0 → (reports_dashboard st).ai_avg_votes = 0) ∧
    (classSolutions st true ≠ 0 →
      (reports_dashboard st).ai_avg_votes * (classSolutions st true : ℚ) =
        (classVotes st true : ℚ)) ∧
    (classSolutions st false = 0 → (reports_dashboard st).human_avg_votes = 0) ∧
    (classSolutions st false ≠ 0 →
      (reports_dashboard st).human_avg_votes * (classSolutions st false : ℚ) =
        (classVotes st false : ℚ)) ∧
    (reports_dashboard avgScenarioStore).ai_avg_votes = 4 / 3 ∧
    (reports_dashboard avgScenarioStore).human_avg_votes = 1 := by
  have key : ∀ (st0 : Store) (flag : Bool),
      (classSolutions st0 flag = 0 → classAvgVotes st0 flag = 0) ∧
      (classSolutions st0 flag ≠ 0 →
        classAvgVotes st0 flag * (classSolutions st0 flag : ℚ) =
          (classVotes st0 flag : ℚ)) := by
    intro st0 flag
    constructor
    · intro h0
      unfold classAvgVotes
      rw [h0]
      rfl
    · intro h0
      unfold classAvgVotes
      rw [if_neg (by simpa using h0)]
      have hcast : (classSolutions st0 flag : ℚ) ≠ 0 := by
        exact_mod_cast h0
      field_simp
  refine ⟨(key st true).1, (key st true).2, (key st false).1, (key st false).2, ?_, ?_⟩
  · show classAvgVotes avgScenarioStore true = 4 / 3
    have h1 : classVotes avgScenarioStore true = 4 := by decide
    have h2 : classSolutions avgScenarioStore true = 3 := by decide
    rw [classAvgVotes, h1, h2]
    norm_num
  · show classAvgVotes avgScenarioStore false = 1
    have h1 : classVotes avgScenarioStore false = 2 := by decide
    have h2 : classSolutions avgScenarioStore false = 2 := by decide
    rw [classAvgVotes, h1, h2]
    norm_num

/-- Witness for C5 discharging both guards at concrete stores. -/
theorem C5_average_votes_witness :
    (reports_dashboard emptyStore).ai_avg_votes = 0 ∧
    (reports_dashboard avgScenarioStore).ai_avg_votes * (classSolutions avgScenarioStore true : ℚ) =
      (classVotes avgScenarioStore true : ℚ) ∧
    (reports_dashboard avgScenarioStore).ai_avg_votes = 4 / 3 :=
  ⟨(C5_average_votes emptyStore).1 (by decide),
   (C5_average_votes avgScenarioStore).2.1 (by decide),
   (C5_average_votes avgScenarioStore).2.2.2.2.1⟩

/-- C6: the report built on the empty store has every count equal to 0,
both averages equal to 0, and every grouped breakdown and leaderboard empty,
without any failure (the function is total). -/
theorem C6_empty_report :
    reports_dashboard emptyStore =
      ⟨0, 0, 0, 0, [], [], [], 0, 0, 0, 0, [], [], [], [], [], []⟩ := by
  decide

/-- C8: when the AI classify or generate call raises, the Problem is still
created with topic "Unknown" together with an ai_generated Solution whose
content is the fixed fallback message (the failure is caught inside
submit_problem, which is total and always returns the new problem id); when
only classification degrades (an out-of-set topic with generation
succeeding) the topic is "Uncategorized". -/
theorem C8_ai_failure_fallback (st : Store) (u : Nat) (d : String) (now : Nat)
    (ai : AICallResult)
    (hfail : ai = AICallResult.classifyRaised ∨
      ∃ tp, ai = AICallResult.generateRaised tp) :
    (∃ p ∈ (submit_problem st u d ai now).1.problems,
        p.id = (submit_problem st u d ai now).2 ∧ p.user = u ∧
        p.topic = some "Unknown") ∧
    (∃ s ∈ (submit_problem st u d ai now).1.solutions,
        s.problem = (submit_problem st u d ai now).2 ∧ s.ai_generated = true ∧
        s.content = "AI failed to generate a solution.") ∧
    (∀ tp text, VALID_TOPICS.contains tp = false →
      ∃ p ∈ (submit_problem st u d (AICallResult.ok tp text) now).1.problems,
        p.id = (submit_problem st u d (AICallResult.ok tp text) now).2 ∧
        p.topic = some "Uncategorized") := by
  have hout : aiOutcome ai = ("Unknown", "AI failed to generate a solution.") := by
    rcases hfail with rfl | ⟨tp, rfl⟩ <;> rfl
  refine ⟨?_, ?_, ?_⟩
  · refine ⟨⟨st.nextId, u, d, some (aiOutcome ai).1, now⟩, ?_, rfl, rfl, ?_⟩
    · exact List.mem_append_right _ (List.mem_singleton_self _)
    · rw [hout]
  · refine ⟨⟨st.nextId + 1, st.nextId, (aiOutcome ai).2, none, true,
      infer_answer_type d, now⟩, ?_, rfl, rfl, ?_⟩
    · exact List.mem_append_right _ (List.mem_singleton_self _)
    · rw [hout]
  · intro tp text htp
    refine ⟨⟨st.nextId, u, d, some (aiOutcome (AICallResult.ok tp text)).1, now⟩,
      ?_, rfl, ?_⟩
    · exact List.mem_append_right _ (List.mem_singleton_self _)
    · simp only [aiOutcome, htp]
      rfl

/-- Witness for C8: classification raising on the empty store. -/
theorem C8_ai_failure_fallback_witness :
    (∃ p ∈ (submit_problem emptyStore 1 "d" AICallResult.classifyRaised 0).1.problems,
        p.id = (submit_problem emptyStore 1 "d" AICallResult.classifyRaised 0).2 ∧
        p.user = 1 ∧ p.topic = some "Unknown") ∧
    (∃ s ∈ (submit_problem emptyStore 1 "d" AICallResult.classifyRaised 0).1.solutions,
        s.problem = (submit_problem emptyStore 1 "d" AICallResult.classifyRaised 0).2 ∧
        s.ai_generated = true ∧
        s.content = "AI failed to generate a solution.") ∧
    (∀ tp text, VALID_TOPICS.contains tp = false →
      ∃ p ∈ (submit_problem emptyStore 1 "d" (AICallResult.ok tp text) 0).1.problems,
        p.id = (submit_problem emptyStore 1 "d" (AICallResult.ok tp text) 0).2 ∧
        p.topic = some "Uncategorized") :=
  C8_ai_failure_fallback emptyStore 1 "d" 0 AICallResult.classifyRaised (Or.inl rfl)

/-- C9: infer_answer_type checks, in order and case-insensitively, for
example/sample, then explain/why/how does, then opinion/best, and returns
example, explanation, opinion or direct accordingly. -/
theorem C9_infer_answer_type (d : String) :
    (infer_answer_type d = "example" ↔
      (containsKw d "example" || containsKw d "sample") = true) ∧
    (infer_answer_type d = "explanation" ↔
      ((containsKw d "example" || containsKw d "sample") = false ∧
       (containsKw d "explain" || containsKw d "why" || containsKw d "how does") = true)) ∧
    (infer_answer_type d = "opinion" ↔
      ((containsKw d "example" || containsKw d "sample") = false ∧
       (containsKw d "explain" || containsKw d "why" || containsKw d "how does") = false ∧
       (containsKw d "opinion" || containsKw d "best") = true)) ∧
    (infer_answer_type d = "direct" ↔
      ((containsKw d "example" || containsKw d "sample") = false ∧
       (containsKw d "explain" || containsKw d "why" || containsKw d "how does") = false ∧
       (containsKw d "opinion" || containsKw d "best") = false)) := by
  have hEx1 : ("example" : String) ≠ "explanation" := by decide
  have hEx2 : ("example" : String) ≠ "opinion" := by decide
  have hEx3 : ("example" : String) ≠ "direct" := by decide
  have hXp1 : ("explanation" : String) ≠ "example" := by decide
  have hXp2 : ("explanation" : String) ≠ "opinion" := by decide
  have hXp3 : ("explanation" : String) ≠ "direct" := by decide
  have hOp1 : ("opinion" : String) ≠ "example" := by decide
  have hOp2 : ("opinion" : String) ≠ "explanation" := by decide
  have hOp3 : ("opinion" : String) ≠ "direct" := by decide
  have hDi1 : ("direct" : String) ≠ "example" := by decide
  have hDi2 : ("direct" : String) ≠ "explanation" := by decide
  have hDi3 : ("direct" : String) ≠ "opinion" := by decide
  simp only [infer_answer_type, containsKw]
  split_ifs with h1 h2 h3 <;>
    simp_all [Bool.not_eq_true, hEx1, hEx2, hEx3, hXp1, hXp2, hXp3,
      hOp1, hOp2, hOp3, hDi1, hDi2, hDi3]
  all_goals (simp only [← Bool.not_eq_true] at *; tauto)

/-- C4: every best_users row carries the count of upvotes on human-authored
solutions of that user and the count of those solutions, the rows are
ordered by total_upvotes descending with at most 10 of them, and a user
whose solutions are all AI-generated totals 0 upvotes regardless of votes. -/
theorem C4_best_users (st : Store) (u : Nat)
    (hu : ∀ s ∈ st.solutions, s.author = some u → s.ai_generated = true) :
    (∀ row ∈ best_users st,
      row.total_upvotes = totalUpvotesOf st row.user ∧
      row.total_solutions = humanSolutionsPosted st row.user) ∧
    List.Pairwise (fun p q : BestUserRow => q.total_upvotes ≤ p.total_upvotes)
      (best_users st) ∧
    (best_users st).length ≤ 10 ∧
    totalUpvotesOf st u = 0 := by
  refine ⟨?_, ?_, ?_, ?_⟩
  · intro row hrow
    have hmem : row ∈ st.users.map (fun v =>
        BestUserRow.mk v (totalUpvotesOf st v) (humanSolutionsPosted st v)) := by
      have h1 := List.take_subset _ _ hrow
      exact (List.perm_insertionSort upvotesDesc _).subset h1
    obtain ⟨v, hv, rfl⟩ := List.mem_map.mp hmem
    exact ⟨rfl, rfl⟩
  · have hs := List.sorted_insertionSort upvotesDesc (st.users.map (fun v =>
      BestUserRow.mk v (totalUpvotesOf st v) (humanSolutionsPosted st v)))
    exact List.Pairwise.sublist (List.take_sublist _ _) hs
  · rw [best_users, List.length_take]
    exact inf_le_left
  · rw [totalUpvotesOf, List.countP_eq_zero]
    intro v hv hp
    rw [Bool.and_eq_true] at hp
    obtain ⟨-, hany⟩ := hp
    rw [List.any_eq_true] at hany
    obtain ⟨s, hsmem, hs⟩ := hany
    rw [Bool.and_eq_true, Bool.and_eq_true] at hs
    obtain ⟨⟨-, hsau⟩, hsai⟩ := hs
    have hau : s.author = some u := by simpa using hsau
    have hai : s.ai_generated = false := by simpa using hsai
    have hcon := hu s hsmem hau
    rw [hai] at hcon
    exact Bool.noConfusion hcon

/-- Witness for C4 at a store whose user 50 has only AI solutions. -/
theorem C4_best_users_witness :
    (∀ row ∈ best_users aiOnlyScenarioStore,
      row.total_upvotes = totalUpvotesOf aiOnlyScenarioStore row.user ∧
      row.total_solutions = humanSolutionsPosted aiOnlyScenarioStore row.user) ∧
    List.Pairwise (fun p q : BestUserRow => q.total_upvotes ≤ p.total_upvotes)
      (best_users aiOnlyScenarioStore) ∧
    (best_users aiOnlyScenarioStore).length ≤ 10 ∧
    totalUpvotesOf aiOnlyScenarioStore 50 = 0 :=
  C4_best_users aiOnlyScenarioStore 50 (by decide)

theorem countVotes_append (st : Store) (w : Vote) (nid sid : Nat) (ty : String) :
    countVotes { st with votes := st.votes ++ [w], nextId := nid } sid ty =
      countVotes st sid ty +
        (if (w.solution == sid && w.type == ty) = true then 1 else 0) := by
  unfold countVotes
  show (st.votes ++ [w]).countP _ = _
  rw [List.countP_append]
  simp [List.countP_cons]

theorem classVotes_append (st : Store) (w : Vote) (nid : Nat) (flag : Bool) :
    classVotes { st with votes := st.votes ++ [w], nextId := nid } flag =
      classVotes st flag +
        (if (st.solutions.any (fun s => s.id == w.solution && s.ai_generated == flag)) = true
         then 1 else 0) := by
  unfold classVotes
  show (st.votes ++ [w]).countP _ = _
  rw [List.countP_append]
  simp [List.countP_cons]

/-- C10: the vote operation performs no validation of the requested type:
for any string t, with no prior Vote by u on the solution, the call stores a
Vote with type t and answers "Vote recorded"; that row is counted in the
report total_votes and in the per-class vote totals behind the averages,
yet when t is neither up nor down it is counted in neither the upvotes nor
the downvotes returned by the call. -/
theorem C10_no_type_validation (st : Store) (u sid : Nat) (t : String) (s0 : Solution)
    (hs : st.solutions.find? (fun s => s.id == sid) = some s0)
    (hfv : findVote st u sid = none) :
    ∃ st2 r, vote_solution st u sid t = some (st2, r) ∧
      r.message = "Vote recorded" ∧
      (∃ w ∈ st2.votes, w.user = u ∧ w.solution = sid ∧ w.type = t) ∧
      (reports_dashboard st2).total_votes = (reports_dashboard st).total_votes + 1 ∧
      ((∃ s ∈ st.solutions, s.id = sid ∧ s.ai_generated = true) →
        classVotes st2 true = classVotes st true + 1) ∧
      ((∃ s ∈ st.solutions, s.id = sid ∧ s.ai_generated = false) →
        classVotes st2 false = classVotes st false + 1) ∧
      (t ≠ "up" → t ≠ "down" →
        r.upvotes = countVotes st sid "up" ∧
        r.downvotes = countVotes st sid "down") := by
  have heq : vote_solution st u sid t =
      some ({ st with votes := st.votes ++ [⟨st.nextId, sid, u, t⟩], nextId := st.nextId + 1 },
        ⟨"Vote recorded",
         countVotes { st with votes := st.votes ++ [⟨st.nextId, sid, u, t⟩], nextId := st.nextId + 1 } sid "up",
         countVotes { st with votes := st.votes ++ [⟨st.nextId, sid, u, t⟩], nextId := st.nextId + 1 } sid "down"⟩) := by
    simp only [vote_solution, hs, hfv]
  refine ⟨_, _, heq, rfl, ?_, ?_, ?_, ?_, ?_⟩
  · exact ⟨⟨st.nextId, sid, u, t⟩,
      List.mem_append_right _ (List.mem_singleton_self _), rfl, rfl, rfl⟩
  · show (st.votes ++ [(⟨st.nextId, sid, u, t⟩ : Vote)]).length = st.votes.length + 1
    simp
  · intro hex
    obtain ⟨s, hsmem, hsid, hsai⟩ := hex
    have hany : st.solutions.any (fun s2 => s2.id == sid && s2.ai_generated == true) = true :=
      List.any_eq_true.mpr ⟨s, hsmem, by simp [hsid, hsai]⟩
    unfold classVotes
    show (st.votes ++ [(⟨st.nextId, sid, u, t⟩ : Vote)]).countP _ = _
    simp [List.countP_append, List.countP_cons, hany]
    exact ⟨s, hsmem, hsid, hsai⟩
  · intro hex
    obtain ⟨s, hsmem, hsid, hsai⟩ := hex
    have hany : st.solutions.any (fun s2 => s2.id == sid && s2.ai_generated == false) = true :=
      List.any_eq_true.mpr ⟨s, hsmem, by simp [hsid, hsai]⟩
    unfold classVotes
    show (st.votes ++ [(⟨st.nextId, sid, u, t⟩ : Vote)]).countP _ = _
    simp [List.countP_append, List.countP_cons, hany]
    exact ⟨s, hsmem, hsid, hsai⟩
  · intro hup hdown
    constructor
    · show countVotes _ sid "up" = countVotes st sid "up"
      unfold countVotes
      show (st.votes ++ [(⟨st.nextId, sid, u, t⟩ : Vote)]).countP _ = _
      simp [List.countP_append, List.countP_cons, hup]
    · show countVotes _ sid "down" = countVotes st sid "down"
      unfold countVotes
      show (st.votes ++ [(⟨st.nextId, sid, u, t⟩ : Vote)]).countP _ = _
      simp [List.countP_append, List.countP_cons, hdown]

/-- Witness for C10: an out-of-domain vote type on a fresh store. -/
theorem C10_no_type_validation_witness :
    ∃ st2 r, vote_solution freshVoteStore 7 11 "sideways" = some (st2, r) ∧
      r.message = "Vote recorded" ∧
      (∃ w ∈ st2.votes, w.user = 7 ∧ w.solution = 11 ∧ w.type = "sideways") ∧
      (reports_dashboard st2).total_votes = (reports_dashboard freshVoteStore).total_votes + 1 ∧
      ((∃ s ∈ freshVoteStore.solutions, s.id = 11 ∧ s.ai_generated = true) →
        classVotes st2 true = classVotes freshVoteStore true + 1) ∧
      ((∃ s ∈ freshVoteStore.solutions, s.id = 11 ∧ s.ai_generated = false) →
        classVotes st2 false = classVotes freshVoteStore false + 1) ∧
      ("sideways" ≠ "up" → "sideways" ≠ "down" →
        r.upvotes = countVotes freshVoteStore 11 "up" ∧
        r.downvotes = countVotes freshVoteStore 11 "down") :=
  C10_no_type_validation freshVoteStore 7 11 "sideways"
    ⟨11, 1, "s", none, true, "direct", 0⟩ (by decide) (by decide)

/-- C2: one vote_solution invocation with requested type t creates a Vote
with type t when none exists by this user on this solution (message "Vote
recorded"), deletes the existing Vote when its type equals t (message "Vote
removed"), overwrites the type of that same row when it differs (no delete
and recreate: same row ids in the same order; message "Vote recorded"), and
in every case returns the up and down counts computed on the store after
the mutation. -/
theorem C2_vote_toggle (st : Store) (u sid : Nat) (t : String)
    (hsol : (st.solutions.find? (fun s => s.id == sid)).isSome = true) :
    ∃ st2 r, vote_solution st u sid t = some (st2, r) ∧
      r.upvotes = countVotes st2 sid "up" ∧
      r.downvotes = countVotes st2 sid "down" ∧
      (findVote st u sid = none →
        r.message = "Vote recorded" ∧
        st.votes.Sublist st2.votes ∧
        st2.votes.length = st.votes.length + 1 ∧
        ∃ w ∈ st2.votes, w.user = u ∧ w.solution = sid ∧ w.type = t) ∧
      (∀ v, findVote st u sid = some v → v.type = t →
        r.message = "Vote removed" ∧
        v ∉ st2.votes ∧
        st2.votes.Sublist st.votes ∧
        ∀ w ∈ st.votes, w.id ≠ v.id → w ∈ st2.votes) ∧
      (∀ v, findVote st u sid = some v → v.type ≠ t →
        r.message = "Vote recorded" ∧
        st2.votes.map Vote.id = st.votes.map Vote.id ∧
        { v with type := t } ∈ st2.votes ∧
        ∀ w ∈ st.votes, w.id ≠ v.id → w ∈ st2.votes) := by
  obtain ⟨s0, hs⟩ := Option.isSome_iff_exists.mp hsol
  cases hfv : findVote st u sid with
  | none =>
    have heq : vote_solution st u sid t =
        some ({ st with votes := st.votes ++ [⟨st.nextId, sid, u, t⟩],
                        nextId := st.nextId + 1 },
          ⟨"Vote recorded",
           countVotes { st with votes := st.votes ++ [⟨st.nextId, sid, u, t⟩],
                                nextId := st.nextId + 1 } sid "up",
           countVotes { st with votes := st.votes ++ [⟨st.nextId, sid, u, t⟩],
                                nextId := st.nextId + 1 } sid "down"⟩) := by
      simp only [vote_solution, hs, hfv]
    refine ⟨_, _, heq, rfl, rfl, ?_, ?_, ?_⟩
    · intro _hnone
      refine ⟨rfl, List.sublist_append_left _ _, by simp, ?_⟩
      exact ⟨⟨st.nextId, sid, u, t⟩,
        List.mem_append_right _ (List.mem_singleton_self _), rfl, rfl, rfl⟩
    · intro v hv
      exact Option.noConfusion hv
    · intro v hv
      exact Option.noConfusion hv
  | some v =>
    by_cases hvt : v.type = t
    · have hvt2 : (v.type == t) = true := by simpa using hvt
      have heq : vote_solution st u sid t =
          some ({ st with votes := st.votes.filter (fun w => w.id != v.id) },
            ⟨"Vote removed",
             countVotes { st with votes := st.votes.filter (fun w => w.id != v.id) } sid "up",
             countVotes { st with votes := st.votes.filter (fun w => w.id != v.id) } sid "down"⟩) := by
        simp only [vote_solution, hs, hfv, hvt2, if_true]
      refine ⟨_, _, heq, rfl, rfl, ?_, ?_, ?_⟩
      · intro hnone
        exact Option.noConfusion hnone
      · intro v2 hv2 htv2
        obtain rfl := Option.some.inj hv2
        refine ⟨rfl, ?_, List.filter_sublist _, ?_⟩
        · intro hmem
          have hcon := (List.mem_filter.mp hmem).2
          simp at hcon
        · intro w hw hne
          rw [List.mem_filter]
          exact ⟨hw, by simpa using hne⟩
      · intro v2 hv2 htv2
        obtain rfl := Option.some.inj hv2
        exact absurd hvt htv2
    · have hvt2 : (v.type == t) = false := by simpa using hvt
      have heq : vote_solution st u sid t =
          some ({ st with votes := st.votes.map (fun w => if w.id == v.id then { w with type := t } else w) },
            ⟨"Vote recorded",
             countVotes { st with votes := st.votes.map (fun w => if w.id == v.id then { w with type := t } else w) } sid "up",
             countVotes { st with votes := st.votes.map (fun w => if w.id == v.id then { w with type := t } else w) } sid "down"⟩) := by
        simp only [vote_solution, hs, hfv, hvt2, Bool.false_eq_true, if_false]
      refine ⟨_, _, heq, rfl, rfl, ?_, ?_, ?_⟩
      · intro hnone
        exact Option.noConfusion hnone
      · intro v2 hv2 htv2
        obtain rfl := Option.some.inj hv2
        exact absurd htv2 hvt
      · intro v2 hv2 htv2
        obtain rfl := Option.some.inj hv2
        refine ⟨rfl, ?_, ?_, ?_⟩
        · rw [List.map_map]
          apply List.map_congr_left
          intro a ha
          show (if a.id == v.id then { a with type := t } else a).id = a.id
          split <;> rfl
        · refine List.mem_map.mpr ⟨v, ?_, by simp⟩
          have hfv2 : st.votes.find? (fun w => w.user == u && w.solution == sid) = some v := hfv
          exact List.mem_of_find?_eq_some hfv2
        · intro w hw hne
          refine List.mem_map.mpr ⟨w, hw, ?_⟩
          have hne2 : (w.id == v.id) = false := by simpa using hne
          simp [hne2]

/-- Witness for C2 on the scenario store (user 200 flips an up vote on
solution 11 to a down vote). -/
theorem C2_vote_toggle_witness :
    ∃ st2 r, vote_solution scenarioStore 200 11 "down" = some (st2, r) ∧
      r.upvotes = countVotes st2 11 "up" ∧
      r.downvotes = countVotes st2 11 "down" ∧
      (findVote scenarioStore 200 11 = none →
        r.message = "Vote recorded" ∧
        scenarioStore.votes.Sublist st2.votes ∧
        st2.votes.length = scenarioStore.votes.length + 1 ∧
        ∃ w ∈ st2.votes, w.user = 200 ∧ w.solution = 11 ∧ w.type = "down") ∧
      (∀ v, findVote scenarioStore 200 11 = some v → v.type = "down" →
        r.message = "Vote removed" ∧
        v ∉ st2.votes ∧
        st2.votes.Sublist scenarioStore.votes ∧
        ∀ w ∈ scenarioStore.votes, w.id ≠ v.id → w ∈ st2.votes) ∧
      (∀ v, findVote scenarioStore 200 11 = some v → v.type ≠ "down" →
        r.message = "Vote recorded" ∧
        st2.votes.map Vote.id = scenarioStore.votes.map Vote.id ∧
        { v with type := "down" } ∈ st2.votes ∧
        ∀ w ∈ scenarioStore.votes, w.id ≠ v.id → w ∈ st2.votes) :=
  C2_vote_toggle scenarioStore 200 11 "down" (by decide)

theorem vote_solution_delete_eq (s1 : Store) (u sid : Nat) (t : String) (s0 : Solution) (v : Vote)
    (hs : s1.solutions.find? (fun s => s.id == sid) = some s0)
    (hv : findVote s1 u sid = some v) (ht : (v.type == t) = true) :
    vote_solution s1 u sid t =
      some ({ s1 with votes := s1.votes.filter (fun w => w.id != v.id) },
        ⟨"Vote removed",
         countVotes { s1 with votes := s1.votes.filter (fun w => w.id != v.id) } sid "up",
         countVotes { s1 with votes := s1.votes.filter (fun w => w.id != v.id) } sid "down"⟩) := by
  simp only [vote_solution, hs, hv, ht, if_true]

theorem vote_solution_update_eq (s1 : Store) (u sid : Nat) (t : String) (s0 : Solution) (v : Vote)
    (hs : s1.solutions.find? (fun s => s.id == sid) = some s0)
    (hv : findVote s1 u sid = some v) (ht : (v.type == t) = false) :
    vote_solution s1 u sid t =
      some ({ s1 with votes := s1.votes.map (fun w => if w.id == v.id then { w with type := t } else w) },
        ⟨"Vote recorded",
         countVotes { s1 with votes := s1.votes.map (fun w => if w.id == v.id then { w with type := t } else w) } sid "up",
         countVotes { s1 with votes := s1.votes.map (fun w => if w.id == v.id then { w with type := t } else w) } sid "down"⟩) := by
  simp only [vote_solution, hs, hv, ht, Bool.false_eq_true, if_false]

/-- C7: toggle semantics composed: starting with no Vote by u on the
solution, two consecutive calls with the same type leave no Vote by u on it
(the second call answers "Vote removed"), while an up call followed by a
down call leaves exactly one Vote row for (u, s), with type down, the
second response carrying the post-state up and down counts. -/
theorem C7_toggle_composition (st : Store) (u sid : Nat) (t : String)
    (hsol : (st.solutions.find? (fun s => s.id == sid)).isSome = true)
    (h0 : findVote st u sid = none) :
    (∃ st1 r1 st2 r2,
      vote_solution st u sid t = some (st1, r1) ∧
      vote_solution st1 u sid t = some (st2, r2) ∧
      r2.message = "Vote removed" ∧
      st2.votes.filter (fun v => v.user == u && v.solution == sid) = []) ∧
    (∃ st1 r1 st2 r2,
      vote_solution st u sid "up" = some (st1, r1) ∧
      vote_solution st1 u sid "down" = some (st2, r2) ∧
      r2.message = "Vote recorded" ∧
      st2.votes.filter (fun v => v.user == u && v.solution == sid) =
        [⟨st.nextId, sid, u, "down"⟩] ∧
      r2.upvotes = countVotes st2 sid "up" ∧
      r2.downvotes = countVotes st2 sid "down") := by
  obtain ⟨s0, hs⟩ := Option.isSome_iff_exists.mp hsol
  have h0f : st.votes.find? (fun v => v.user == u && v.solution == sid) = none := h0
  have hp0 : ∀ x ∈ st.votes, ((x.user == u && x.solution == sid) = false) := by
    intro x hx
    have hnx := List.find?_eq_none.mp h0f x hx
    simpa using hnx
  have heq1 : ∀ t0 : String, vote_solution st u sid t0 =
      some ({ st with votes := st.votes ++ [⟨st.nextId, sid, u, t0⟩], nextId := st.nextId + 1 },
        ⟨"Vote recorded",
         countVotes { st with votes := st.votes ++ [⟨st.nextId, sid, u, t0⟩], nextId := st.nextId + 1 } sid "up",
         countVotes { st with votes := st.votes ++ [⟨st.nextId, sid, u, t0⟩], nextId := st.nextId + 1 } sid "down"⟩) := by
    intro t0
    simp only [vote_solution, hs, h0]
  have hs1 : ∀ t0 : String,
      ({ st with votes := st.votes ++ [⟨st.nextId, sid, u, t0⟩], nextId := st.nextId + 1 } : Store).solutions.find?
        (fun s => s.id == sid) = some s0 := fun _ => hs
  have hfind1 : ∀ t0 : String,
      findVote { st with votes := st.votes ++ [⟨st.nextId, sid, u, t0⟩], nextId := st.nextId + 1 } u sid =
        some ⟨st.nextId, sid, u, t0⟩ := by
    intro t0
    unfold findVote
    show (st.votes ++ [(⟨st.nextId, sid, u, t0⟩ : Vote)]).find? _ = _
    rw [List.find?_append, h0f]
    simp
  constructor
  · have heq2 := vote_solution_delete_eq
      { st with votes := st.votes ++ [⟨st.nextId, sid, u, t⟩], nextId := st.nextId + 1 }
      u sid t s0 ⟨st.nextId, sid, u, t⟩ (hs1 t) (hfind1 t) (by simp)
    refine ⟨_, _, _, _, heq1 t, heq2, rfl, ?_⟩
    rw [List.filter_eq_nil_iff]
    intro a ha
    have ha2 := List.mem_filter.mp ha
    rcases List.mem_append.mp ha2.1 with hmem | hmem
    · simp [hp0 a hmem]
    · rw [List.mem_singleton] at hmem
      subst hmem
      have hcon := ha2.2
      simp at hcon
  · have heq2 := vote_solution_update_eq
      { st with votes := st.votes ++ [⟨st.nextId, sid, u, "up"⟩], nextId := st.nextId + 1 }
      u sid "down" s0 ⟨st.nextId, sid, u, "up"⟩ (hs1 "up") (hfind1 "up") rfl
    refine ⟨_, _, _, _, heq1 "up", heq2, rfl, ?_, rfl, rfl⟩
    show ((st.votes ++ [(⟨st.nextId, sid, u, "up"⟩ : Vote)]).map _).filter _ = _
    rw [List.map_append, List.filter_append]
    have hleft : ((st.votes.map (fun w => if w.id == (⟨st.nextId, sid, u, "up"⟩ : Vote).id then { w with type := "down" } else w)).filter
        (fun v => v.user == u && v.solution == sid)) = [] := by
      rw [List.filter_eq_nil_iff]
      intro b hb
      obtain ⟨w, hw, rfl⟩ := List.mem_map.mp hb
      rw [Bool.not_eq_true, Bool.and_eq_false_iff] at *
      have hu2 := updVote_user (⟨st.nextId, sid, u, "up"⟩ : Vote).id "down" w
      have hv2 := updVote_solution (⟨st.nextId, sid, u, "up"⟩ : Vote).id "down" w
      rcases Bool.and_eq_false_iff.mp (hp0 w hw) with hca | hca
      · left
        rw [hu2]
        exact hca
      · right
        rw [hv2]
        exact hca
    rw [hleft]
    simp
  

/-- Witness for C7 on the fresh store with one solution and no votes. -/
theorem C7_toggle_composition_witness :
    (∃ st1 r1 st2 r2,
      vote_solution freshVoteStore 7 11 "up" = some (st1, r1) ∧
      vote_solution st1 7 11 "up" = some (st2, r2) ∧
      r2.message = "Vote removed" ∧
      st2.votes.filter (fun v => v.user == 7 && v.solution == 11) = []) ∧
    (∃ st1 r1 st2 r2,
      vote_solution freshVoteStore 7 11 "up" = some (st1, r1) ∧
      vote_solution st1 7 11 "down" = some (st2, r2) ∧
      r2.message = "Vote recorded" ∧
      st2.votes.filter (fun v => v.user == 7 && v.solution == 11) =
        [⟨freshVoteStore.nextId, 11, 7, "down"⟩] ∧
      r2.upvotes = countVotes st2 11 "up" ∧
      r2.downvotes = countVotes st2 11 "down") :=
  C7_toggle_composition freshVoteStore 7 11 "up" (by decide) (by decide)

end CodeClinic
